import Mathlib

/-!
Verification of the series RLC transient-response simulator.

The development shallowly embeds the core components of the repository:

* `SignalGenerator.generate_signal` and the per-kind sampling helpers
  (`src/core/signals.py`),
* `LaplaceSolver.get_signal_laplace`, `LaplaceSolver.numerical_simulation`,
  `LaplaceSolver.generate_numerical_solution`, `LaplaceSolver.solve` and the
  voltage helpers (`src/core/laplace_solver - copia.py`),
* `RLCModel` with its characteristic parameters and `get_impedance`
  (`src/core/rlc_model.py`),
* the parameter guard of `MainWindow.simulate` (`src/ui/main_window.py`).

Machine floats are modelled as exact rationals (ℚ) for the sampled/numeric
paths and as real numbers (ℝ) where square roots and π occur.  SymPy
expressions are modelled by the small syntax tree `SymExpr`; the external
CAS entry points (`sympy.simplify`, `sympy.inverse_laplace_transform`,
`sympy.lambdify` followed by pointwise evaluation) are oracle parameters of
`LaplaceSolver.solve`, since their behaviour lives outside the repository.
Python code that can raise is embedded with `Except`; a raised
`ValueError`/`ZeroDivisionError` is the `.error` branch.
-/

namespace RLC

open Classical

/-- Signal parameter dictionary: `params.get('amplitude', 1)`,
`params.get('a', 0.001)`, `params.get('t0', 0.001)` are modelled by
optional fields read with a default. -/
structure SignalParams where
  amplitude : Option ℚ
  a : Option ℚ
  t0 : Option ℚ

namespace SignalGenerator

/-- Embedding of `SignalGenerator._step_signal`: `A * np.ones_like(t)`. -/
def step_signal (params : SignalParams) (t : List ℚ) : List ℚ :=
  let A := params.amplitude.getD 1
  t.map (fun _ => A)

/-- Embedding of `SignalGenerator._pulse_signal`: start from zeros, set `A`
where `t >= 0`, then set `0` where `t >= a`; the final per-sample value is
therefore `0` when `a ≤ x`, else `A` when `0 ≤ x`, else `0`. -/
def pulse_signal (params : SignalParams) (t : List ℚ) : List ℚ :=
  let A := params.amplitude.getD 1
  let a := params.a.getD (1 / 1000)
  t.map (fun x => if a ≤ x then 0 else if 0 ≤ x then A else 0)

/-- Embedding of `SignalGenerator._ramp_signal`: zeros, with `A * t` on the
samples where `t >= 0`. -/
def ramp_signal (params : SignalParams) (t : List ℚ) : List ℚ :=
  let A := params.amplitude.getD 1
  t.map (fun x => if 0 ≤ x then A * x else 0)

/-- Embedding of `SignalGenerator._delayed_signal`: zeros, with `A` on the
samples where `t >= t0`. -/
def delayed_signal (params : SignalParams) (t : List ℚ) : List ℚ :=
  let A := params.amplitude.getD 1
  let t0 := params.t0.getD (1 / 1000)
  t.map (fun x => if t0 ≤ x then A else 0)

/-- Embedding of `SignalGenerator._impulse_signal`: grid spacing
`dt = t[1] - t[0]` when the grid has more than one point (else `0.0001`),
pulse width `dt * 2`, height `A / width`, assigned on samples with
`np.abs(t) < width / 2`. -/
def impulse_signal (params : SignalParams) (t : List ℚ) : List ℚ :=
  let A := params.amplitude.getD 1
  let dt := if 1 < t.length then t.getD 1 0 - t.getD 0 0 else 1 / 10000
  let width := dt * 2
  let height := A / width
  t.map (fun x => if |x| < width / 2 then height else 0)

/-- Embedding of `SignalGenerator.generate_signal`: string dispatch over the
five recognized kinds, raising `ValueError` (the `.error` branch) otherwise. -/
def generate_signal (signal_type : String) (params : SignalParams)
    (time_array : List ℚ) : Except String (List ℚ) :=
  if signal_type = "step" then .ok (step_signal params time_array)
  else if signal_type = "pulse" then .ok (pulse_signal params time_array)
  else if signal_type = "ramp" then .ok (ramp_signal params time_array)
  else if signal_type = "delayed" then .ok (delayed_signal params time_array)
  else if signal_type = "impulse" then .ok (impulse_signal params time_array)
  else .error ("Tipo de señal no reconocido: " ++ signal_type)

end SignalGenerator

/-- Syntax tree for the SymPy expressions the solver builds: rational
constants, the transform variable `s`, and the arithmetic operations and
exponential that appear in `get_signal_laplace` and in the impedance. -/
inductive SymExpr where
  | const (q : ℚ)
  | svar
  | add (a b : SymExpr)
  | sub (a b : SymExpr)
  | mul (a b : SymExpr)
  | div (a b : SymExpr)
  | pow (a : SymExpr) (n : ℕ)
  | exp (a : SymExpr)
deriving DecidableEq

/-- Denotation of a `SymExpr` at a real value of the variable `s`
(division is Lean division, with the usual junk value at `0`). -/
noncomputable def SymExpr.evalAt : SymExpr → ℝ → ℝ
  | .const q, _ => (q : ℝ)
  | .svar, s => s
  | .add a b, s => a.evalAt s + b.evalAt s
  | .sub a b, s => a.evalAt s - b.evalAt s
  | .mul a b, s => a.evalAt s * b.evalAt s
  | .div a b, s => a.evalAt s / b.evalAt s
  | .pow a n, s => a.evalAt s ^ n
  | .exp a, s => Real.exp (a.evalAt s)

namespace LaplaceSolver

/-- Embedding of `LaplaceSolver._get_signal_laplace`: the transform-domain
expression built for each signal kind (`A/s`, `(A/s)*(1 - exp(-a*s))`,
`A/s**2`, `(A/s)*exp(-t0*s)`, `A`), raising `ValueError` otherwise.  Note
`-a * self.s` parses in Python as `(-a) * s`. -/
def get_signal_laplace (signal_type : String) (params : SignalParams) :
    Except String SymExpr :=
  let A := params.amplitude.getD 1
  if signal_type = "step" then
    .ok (.div (.const A) .svar)
  else if signal_type = "pulse" then
    let a := params.a.getD (1 / 1000)
    .ok (.mul (.div (.const A) .svar)
      (.sub (.const 1) (.exp (.mul (.const (-a)) .svar))))
  else if signal_type = "ramp" then
    .ok (.div (.const A) (.pow .svar 2))
  else if signal_type = "delayed" then
    let t0 := params.t0.getD (1 / 1000)
    .ok (.mul (.div (.const A) .svar) (.exp (.mul (.const (-t0)) .svar)))
  else if signal_type = "impulse" then
    .ok (.const A)
  else .error ("Tipo de señal no reconocido: " ++ signal_type)

/-- Embedding of `LaplaceSolver._get_duration`: `max(a*10, 0.01)` for pulse,
`max(t0*10, 0.01)` for delayed, `0.02` otherwise. -/
def get_duration (signal_type : String) (params : SignalParams) : ℚ :=
  if signal_type = "pulse" then max (params.a.getD (1 / 1000) * 10) (1 / 100)
  else if signal_type = "delayed" then
    max (params.t0.getD (1 / 1000) * 10) (1 / 100)
  else 1 / 50

/-- Embedding of `np.linspace(a, b, n)`: `n` uniformly spaced samples from
`a` to `b`. -/
def linspace (a b : ℚ) (n : ℕ) : List ℚ :=
  (List.range n).map (fun k : ℕ => a + (b - a) * (k : ℚ) / ((n : ℚ) - 1))

/-- State `(i[k], v_c[k])` of the Euler loop in
`LaplaceSolver._numerical_simulation`: both start at `0`; each step does
`i[k] = i[k-1] + (V_in[k-1] - R*i[k-1] - v_c[k-1]) / L * dt` followed by
`v_c[k] = v_c[k-1] + i[k-1] / C * dt`. -/
def eulerState (R L C dt : ℚ) (vin : ℕ → ℚ) : ℕ → ℚ × ℚ
  | 0 => (0, 0)
  | k + 1 =>
    let p := eulerState R L C dt vin k
    let di_dt := (vin k - R * p.1 - p.2) / L
    let dv_c_dt := p.1 / C
    (p.1 + di_dt * dt, p.2 + dv_c_dt * dt)

/-- Embedding of `LaplaceSolver._numerical_simulation`: Euler integration of
the series-RLC ODE over the given grid, driven by the sampled input; the
function returns the current trace `i`.  The grid spacing is read as
`time_array[1] - time_array[0]` (the solver always passes a 2000-point
grid; out-of-range reads are modelled with a `0` default where Python
would raise `IndexError`). -/
def numerical_simulation (time_array input_signal : List ℚ) (R L C : ℚ) :
    List ℚ :=
  let dt := time_array.getD 1 0 - time_array.getD 0 0
  (List.range time_array.length).map
    (fun k => (eulerState R L C dt (fun j => input_signal.getD j 0) k).1)

/-- Value of one entry of the NumPy array produced by evaluating the
lambdified closed form: a complex float, i.e. real and imaginary parts plus
a flag recording whether the float data is finite.  The code never inspects
`finite`; it is carried so that statements can speak about non-finite
evaluation results. -/
structure CVal where
  re : ℚ
  im : ℚ
  finite : Bool
deriving DecidableEq

/-- Embedding of `LaplaceSolver._generate_numerical_solution`.  The
conversion of the symbolic expression to a numeric function and its
pointwise evaluation (`sympy.lambdify` plus the comprehension over the
grid) is the oracle `evalF`; `.error` is a raised exception.  On success
the code keeps `np.real` of the values (the identity for a real dtype);
on exception it falls back to the Euler simulation.  No finiteness check
is performed anywhere. -/
def generate_numerical_solution (evalF : List ℚ → Except Unit (List CVal))
    (signal_type : String) (params : SignalParams) (R L C : ℚ) :
    Except String (List ℚ × List ℚ × List ℚ) :=
  let duration := get_duration signal_type params
  let time_array := linspace 0 duration 2000
  match SignalGenerator.generate_signal signal_type params time_array with
  | .error e => .error e
  | .ok input_signal =>
    let current_array :=
      match evalF time_array with
      | .ok vals => vals.map (fun v => v.re)
      | .error _ => numerical_simulation time_array input_signal R L C
    .ok (time_array, current_array, input_signal)

/-- Current trace produced by `generate_numerical_solution` (projection used
to state properties). -/
def gnsCurrent (evalF : List ℚ → Except Unit (List CVal))
    (signal_type : String) (params : SignalParams) (R L C : ℚ) :
    Option (List ℚ) :=
  (generate_numerical_solution evalF signal_type params R L C).toOption.map
    (fun r => r.2.1)

/-- Embedding of `np.gradient(f, x)` on the uniform grids the solver uses:
first-order one-sided differences at the two boundary samples and central
differences in the interior. -/
def npGradient (f x : List ℚ) : List ℚ :=
  (List.range f.length).map (fun i =>
    if i = 0 then (f.getD 1 0 - f.getD 0 0) / (x.getD 1 0 - x.getD 0 0)
    else if i = f.length - 1 then
      (f.getD i 0 - f.getD (i - 1) 0) / (x.getD i 0 - x.getD (i - 1) 0)
    else (f.getD (i + 1) 0 - f.getD (i - 1) 0) /
      (x.getD (i + 1) 0 - x.getD (i - 1) 0))

/-- Embedding of `LaplaceSolver._calculate_voltage_L`:
`L * np.gradient(current, time)`. -/
def calculate_voltage_L (time current : List ℚ) (L : ℚ) : List ℚ :=
  (npGradient current time).map (fun d => L * d)

/-- Accumulated trapezoid sums of `LaplaceSolver._calculate_voltage_C`:
`v_c[i] = v_c[i-1] + (current[i] + current[i-1]) / 2 * dt / C`. -/
def vcTrapezoid (current : List ℚ) (dt C : ℚ) : ℕ → ℚ
  | 0 => 0
  | i + 1 =>
    vcTrapezoid current dt C i +
      (current.getD (i + 1) 0 + current.getD i 0) / 2 * dt / C

/-- Embedding of `LaplaceSolver._calculate_voltage_C`. -/
def calculate_voltage_C (time current : List ℚ) (C : ℚ) : List ℚ :=
  let dt := time.getD 1 0 - time.getD 0 0
  (List.range current.length).map (vcTrapezoid current dt C)

/-- Transform-domain impedance `Z(s) = R + s*L + 1/(s*C)` as built in
`LaplaceSolver.solve` (Python parse: `(R + s*L) + 1/(s*C)`). -/
def Zs (R L C : ℚ) : SymExpr :=
  .add (.add (.const R) (.mul .svar (.const L)))
    (.div (.const 1) (.mul .svar (.const C)))

/-- Oracle bundle for the external SymPy calls made by `solve`:
`simplify`, `inverse_laplace_transform` (which can raise), and
`lambdify` followed by pointwise evaluation over a grid (which can raise). -/
structure SymOracle where
  simplify : SymExpr → SymExpr
  inverseLaplace : SymExpr → Except Unit SymExpr
  lambdifyEval : SymExpr → List ℚ → Except Unit (List CVal)

/-- Result dictionary of `LaplaceSolver.solve`. -/
structure SolveResult where
  symbolic : SymExpr
  time : List ℚ
  current : List ℚ
  voltage_R : List ℚ
  voltage_L : List ℚ
  voltage_C : List ℚ
  input_signal : List ℚ

/-- Embedding of `LaplaceSolver.solve`: build `V(s)` (propagating the
unknown-kind error), form `I(s) = simplify(V(s)/Z(s))`, attempt the
inverse transform — on success the result is simplified, on a raised
exception `_numerical_inverse_laplace` returns `I(s)` unchanged — then
generate the numerical solution and the three voltage traces. -/
def solve (O : SymOracle) (R L C : ℚ) (signal_type : String)
    (signal_params : SignalParams) : Except String SolveResult :=
  match get_signal_laplace signal_type signal_params with
  | .error e => .error e
  | .ok V_s =>
    let I_s := O.simplify (.div V_s (Zs R L C))
    let i_t := match O.inverseLaplace I_s with
      | .ok e => O.simplify e
      | .error _ => I_s
    match generate_numerical_solution (O.lambdifyEval i_t) signal_type
        signal_params R L C with
    | .error e => .error e
    | .ok r =>
      .ok ⟨i_t, r.1, r.2.1, r.2.1.map (fun c => c * R),
        calculate_voltage_L r.1 r.2.1 L,
        calculate_voltage_C r.1 r.2.1 C, r.2.2⟩

/-- Symbolic field of the solve result (projection used in statements). -/
def solveSymbolic (O : SymOracle) (R L C : ℚ) (signal_type : String)
    (signal_params : SignalParams) : Option SymExpr :=
  (solve O R L C signal_type signal_params).toOption.map (fun r => r.symbolic)

/-- Lengths of the six numeric sequences of the solve result (projection
used in statements). -/
def solveLengths (O : SymOracle) (R L C : ℚ) (signal_type : String)
    (signal_params : SignalParams) : Option (ℕ × ℕ × ℕ × ℕ × ℕ × ℕ) :=
  (solve O R L C signal_type signal_params).toOption.map
    (fun r => (r.time.length, r.current.length, r.voltage_R.length,
      r.voltage_L.length, r.voltage_C.length, r.input_signal.length))

end LaplaceSolver

/-- Object produced by `RLCModel.__init__`: the three components and the
characteristic attributes set by `_calculate_characteristic_params`. -/
structure RLCModel where
  R : ℝ
  L : ℝ
  C : ℝ
  omega_0 : ℝ
  zeta : ℝ
  f_0 : ℝ
  damping_type : String
  omega_d : ℝ

/-- Embedding of `RLCModel.__init__` together with
`_calculate_characteristic_params`: no validation is performed;
`omega_0 = 1/sqrt(L*C)`, `zeta = (R/2)*sqrt(C/L)`, `f_0 = omega_0/(2*pi)`,
and the damping branch compares `zeta` with `1`, setting
`omega_d = omega_0*sqrt(1 - zeta**2)` only in the underdamped branch. -/
noncomputable def RLCModel.init (R L C : ℝ) : RLCModel :=
  let omega_0 := 1 / Real.sqrt (L * C)
  let zeta := R / 2 * Real.sqrt (C / L)
  let f_0 := omega_0 / (2 * Real.pi)
  if zeta < 1 then
    ⟨R, L, C, omega_0, zeta, f_0, "subamortiguado",
      omega_0 * Real.sqrt (1 - zeta ^ 2)⟩
  else if zeta = 1 then
    ⟨R, L, C, omega_0, zeta, f_0, "críticamente amortiguado", 0⟩
  else
    ⟨R, L, C, omega_0, zeta, f_0, "sobreamortiguado", 0⟩

/-- Embedding of `RLCModel.get_impedance`: `omega = 2*pi*frequency`,
`X_L = omega*L`, `X_C = 1/(omega*C)`, returning `R + 1j*(X_L - X_C)`.
Python float division raises `ZeroDivisionError` when `omega * C` is zero,
modelled as the `.error` branch. -/
noncomputable def RLCModel.get_impedance (m : RLCModel) (frequency : ℝ) :
    Except Unit ℂ :=
  let omega := 2 * Real.pi * frequency
  let X_L := omega * m.L
  if omega * m.C = 0 then .error ()
  else .ok ((m.R : ℂ) + Complex.I * ((X_L : ℂ) - ((1 / (omega * m.C) : ℝ) : ℂ)))

/-- Embedding of the parameter guard of `MainWindow.simulate`: when
`R <= 0 or L <= 0 or C <= 0` the method warns and returns before building
a model (`none`); otherwise it constructs `RLCModel(R, L, C)`. -/
noncomputable def simulateModel (R L C : ℝ) : Option RLCModel :=
  if R ≤ 0 ∨ L ≤ 0 ∨ C ≤ 0 then none else some (RLCModel.init R L C)

/-! ### Helper lemmas -/

/-- Reading an entry of a list built by mapping over `List.range`. -/
theorem getD_map_range {α : Type} (n : ℕ) (f : ℕ → α) (k : ℕ) (hk : k < n)
    (d : α) : (((List.range n).map f).getD k d) = f k := by
  rw [List.getD_eq_getElem?_getD, List.getElem?_map, List.getElem?_range hk]
  rfl

theorem length_linspace (a b : ℚ) (n : ℕ) :
    (LaplaceSolver.linspace a b n).length = n := by
  rw [LaplaceSolver.linspace, List.length_map, List.length_range]

theorem length_numerical_simulation (t v : List ℚ) (R L C : ℚ) :
    (LaplaceSolver.numerical_simulation t v R L C).length = t.length := by
  rw [LaplaceSolver.numerical_simulation, List.length_map, List.length_range]

/-! ### C8 — pulse sampling -/

/-- C8: sampling the pulse kind returns `A` at exactly the samples with
`t ∈ [0, a)` and `0` at every other sample; in particular, for `a = 0.001`
and amplitude `5` on a grid containing `t = 0` and `t = 0.002`, the sample
at `t = 0` is `5` and the sample at `t = 0.002` is `0`. -/
theorem pulse_sampling_exact :
    (∀ (A a : ℚ) (t : List ℚ),
      SignalGenerator.pulse_signal ⟨some A, some a, none⟩ t =
        t.map (fun x => if 0 ≤ x ∧ x < a then A else 0)) ∧
    SignalGenerator.pulse_signal ⟨some 5, some (1 / 1000), none⟩
      [0, 2 / 1000] = [5, 0] := by
  constructor
  · intro A a t
    dsimp only [SignalGenerator.pulse_signal, Option.getD_some]
    apply List.map_congr_left
    intro x _
    by_cases h1 : a ≤ x
    · rw [if_pos h1, if_neg (fun h => absurd h.2 (not_lt.mpr h1))]
    · by_cases h2 : (0 : ℚ) ≤ x
      · rw [if_neg h1, if_pos h2, if_pos ⟨h2, lt_of_not_le h1⟩]
      · rw [if_neg h1, if_neg h2, if_neg (fun h => absurd h.1 h2)]
  · norm_num [SignalGenerator.pulse_signal]

/-! ### C5 — unknown signal kind -/

/-- C5: for every signal kind outside the five recognized values, both the
transform-building entry point and the numeric sampling entry point raise
the unknown-kind error and return no result. -/
theorem unknown_kind_raises (signal_type : String) (params : SignalParams)
    (t : List ℚ)
    (h : signal_type ∉
      (["step", "pulse", "ramp", "delayed", "impulse"] : List String)) :
    LaplaceSolver.get_signal_laplace signal_type params =
      .error ("Tipo de señal no reconocido: " ++ signal_type) ∧
    SignalGenerator.generate_signal signal_type params t =
      .error ("Tipo de señal no reconocido: " ++ signal_type) := by
  simp only [List.mem_cons, List.not_mem_nil, or_false, not_or] at h
  obtain ⟨h1, h2, h3, h4, h5⟩ := h
  constructor
  · rw [LaplaceSolver.get_signal_laplace]
    simp only [if_neg h1, if_neg h2, if_neg h3, if_neg h4, if_neg h5]
  · rw [SignalGenerator.generate_signal]
    simp only [if_neg h1, if_neg h2, if_neg h3, if_neg h4, if_neg h5]

/-- Witness for C5 at the concrete kind `"square"`. -/
theorem unknown_kind_raises_witness :
    ("square" ∉ (["step", "pulse", "ramp", "delayed", "impulse"] :
      List String)) ∧
    (LaplaceSolver.get_signal_laplace "square" ⟨none, none, none⟩ =
      .error ("Tipo de señal no reconocido: " ++ "square") ∧
    SignalGenerator.generate_signal "square" ⟨none, none, none⟩ [] =
      .error ("Tipo de señal no reconocido: " ++ "square")) :=
  ⟨by decide, unknown_kind_raises "square" ⟨none, none, none⟩ [] (by decide)⟩

/-! ### C2 — transform-domain expressions -/

/-- Denotation of the transform-building result at a real `s` (projection
used in statements). -/
noncomputable def transformEval (signal_type : String) (params : SignalParams)
    (s : ℝ) : Option ℝ :=
  (LaplaceSolver.get_signal_laplace signal_type params).toOption.map
    (fun e => e.evalAt s)

/-- C2: for every amplitude `A` and valid kind-specific parameters, the
transform-building operation returns exactly the analytic one-sided
transform of the chosen waveform: `A/s` for step, `(A/s)*(1 - exp(-a*s))`
for pulse, `A/s^2` for ramp, `(A/s)*exp(-t0*s)` for delayed-step, and the
constant `A` for impulse. -/
theorem signal_laplace_analytic (A a t0 : ℚ) (s : ℝ) (hs : s ≠ 0) :
    transformEval "step" ⟨some A, none, none⟩ s = some ((A : ℝ) / s) ∧
    transformEval "pulse" ⟨some A, some a, none⟩ s =
      some ((A : ℝ) / s * (1 - Real.exp (-((a : ℝ) * s)))) ∧
    transformEval "ramp" ⟨some A, none, none⟩ s = some ((A : ℝ) / s ^ 2) ∧
    transformEval "delayed" ⟨some A, none, some t0⟩ s =
      some ((A : ℝ) / s * Real.exp (-((t0 : ℝ) * s))) ∧
    transformEval "impulse" ⟨some A, none, none⟩ s = some ((A : ℝ)) := by
  refine ⟨rfl, ?_, rfl, ?_, rfl⟩
  · show some ((A : ℝ) / s * (((1 : ℚ) : ℝ) -
      Real.exp (((-a : ℚ) : ℝ) * s))) = _
    rw [show (((-a : ℚ) : ℝ) * s) = -((a : ℝ) * s) by push_cast; ring,
      Rat.cast_one]
  · show some ((A : ℝ) / s * Real.exp (((-t0 : ℚ) : ℝ) * s)) = _
    rw [show (((-t0 : ℚ) : ℝ) * s) = -((t0 : ℝ) * s) by push_cast; ring]

/-- Witness for C2 at `A = 1`, `a = 1`, `t0 = 1`, `s = 1`. -/
theorem signal_laplace_analytic_witness :
    ((1 : ℝ) ≠ 0) ∧
    (transformEval "step" ⟨some 1, none, none⟩ 1 = some ((1 : ℝ) / 1) ∧
    transformEval "pulse" ⟨some 1, some 1, none⟩ 1 =
      some ((1 : ℝ) / 1 * (1 - Real.exp (-((1 : ℝ) * 1)))) ∧
    transformEval "ramp" ⟨some 1, none, none⟩ 1 = some ((1 : ℝ) / 1 ^ 2) ∧
    transformEval "delayed" ⟨some 1, none, some 1⟩ 1 =
      some ((1 : ℝ) / 1 * Real.exp (-((1 : ℝ) * 1))) ∧
    transformEval "impulse" ⟨some 1, none, none⟩ 1 = some ((1 : ℝ))) := by
  refine ⟨one_ne_zero, ?_⟩
  have h := signal_laplace_analytic 1 1 1 1 one_ne_zero
  simpa using h

/-! ### C4 — Euler fallback recurrence -/

/-- C4: over an `n`-point uniform grid with spacing `dt`, the Euler fallback
returns the sequence with `i[0] = 0`, `v_C[0] = 0` and, for each step,
`i[k+1] = i[k] + dt*(V_in[k] - R*i[k] - v_C[k])/L` and
`v_C[k+1] = v_C[k] + dt*i[k]/C`, where `v_C` is the capacitor-voltage
component of the Euler state. -/
theorem euler_fallback_recurrence (R L C dt : ℚ) (vin : List ℚ) (n k : ℕ)
    (hn : 2 ≤ n) (hk : k + 1 < n) :
    (LaplaceSolver.numerical_simulation
        ((List.range n).map (fun j : ℕ => (j : ℚ) * dt)) vin R L C).length =
      n ∧
    (LaplaceSolver.numerical_simulation
        ((List.range n).map (fun j : ℕ => (j : ℚ) * dt)) vin R L C).getD 0 0 =
      0 ∧
    (LaplaceSolver.eulerState R L C dt (fun i => vin.getD i 0) 0).2 = 0 ∧
    (LaplaceSolver.numerical_simulation
        ((List.range n).map (fun j : ℕ => (j : ℚ) * dt)) vin R L C).getD
        (k + 1) 0 =
      (LaplaceSolver.numerical_simulation
          ((List.range n).map (fun j : ℕ => (j : ℚ) * dt)) vin R L C).getD k
          0 +
        dt * (vin.getD k 0 -
          R * (LaplaceSolver.numerical_simulation
            ((List.range n).map (fun j : ℕ => (j : ℚ) * dt)) vin R L
              C).getD k 0 -
          (LaplaceSolver.eulerState R L C dt (fun i => vin.getD i 0) k).2) /
          L ∧
    (LaplaceSolver.eulerState R L C dt (fun i => vin.getD i 0) (k + 1)).2 =
      (LaplaceSolver.eulerState R L C dt (fun i => vin.getD i 0) k).2 +
        dt * (LaplaceSolver.numerical_simulation
          ((List.range n).map (fun j : ℕ => (j : ℚ) * dt)) vin R L C).getD k
          0 / C := by
  have hdt : (((List.range n).map (fun j : ℕ => (j : ℚ) * dt)).getD 1 0 -
      ((List.range n).map (fun j : ℕ => (j : ℚ) * dt)).getD 0 0) = dt := by
    rw [getD_map_range n _ 1 (by omega), getD_map_range n _ 0 (by omega)]
    push_cast
    ring
  have hsim : LaplaceSolver.numerical_simulation
      ((List.range n).map (fun j : ℕ => (j : ℚ) * dt)) vin R L C =
      (List.range n).map
        (fun j => (LaplaceSolver.eulerState R L C dt
          (fun i => vin.getD i 0) j).1) := by
    simp only [LaplaceSolver.numerical_simulation, hdt, List.length_map,
      List.length_range]
  refine ⟨by rw [hsim, List.length_map, List.length_range], ?_, rfl, ?_, ?_⟩
  · rw [hsim, getD_map_range n _ 0 (by omega)]
    rfl
  · rw [hsim, getD_map_range n _ (k + 1) hk, getD_map_range n _ k (by omega)]
    simp only [LaplaceSolver.eulerState]
    ring
  · rw [hsim, getD_map_range n _ k (by omega)]
    simp only [LaplaceSolver.eulerState]
    ring

/-- Witness for C4 at `R = L = C = 1`, `dt = 1`, `vin = [0,0,0]`, `n = 3`,
`k = 1`. -/
theorem euler_fallback_recurrence_witness :
    ((2 ≤ 3 ∧ 1 + 1 < 3) ∧
    ((LaplaceSolver.numerical_simulation
        ((List.range 3).map (fun j : ℕ => (j : ℚ) * 1)) [0, 0, 0] 1 1
          1).length = 3 ∧
    (LaplaceSolver.numerical_simulation
        ((List.range 3).map (fun j : ℕ => (j : ℚ) * 1)) [0, 0, 0] 1 1 1).getD
        0 0 = 0 ∧
    (LaplaceSolver.eulerState 1 1 1 1
      (fun i => ([0, 0, 0] : List ℚ).getD i 0) 0).2 = 0 ∧
    (LaplaceSolver.numerical_simulation
        ((List.range 3).map (fun j : ℕ => (j : ℚ) * 1)) [0, 0, 0] 1 1 1).getD
        (1 + 1) 0 =
      (LaplaceSolver.numerical_simulation
          ((List.range 3).map (fun j : ℕ => (j : ℚ) * 1)) [0, 0, 0] 1 1
            1).getD 1 0 +
        1 * (([0, 0, 0] : List ℚ).getD 1 0 -
          1 * (LaplaceSolver.numerical_simulation
            ((List.range 3).map (fun j : ℕ => (j : ℚ) * 1)) [0, 0, 0] 1 1
              1).getD 1 0 -
          (LaplaceSolver.eulerState 1 1 1 1
            (fun i => ([0, 0, 0] : List ℚ).getD i 0) 1).2) / 1 ∧
    (LaplaceSolver.eulerState 1 1 1 1
        (fun i => ([0, 0, 0] : List ℚ).getD i 0) (1 + 1)).2 =
      (LaplaceSolver.eulerState 1 1 1 1
          (fun i => ([0, 0, 0] : List ℚ).getD i 0) 1).2 +
        1 * (LaplaceSolver.numerical_simulation
          ((List.range 3).map (fun j : ℕ => (j : ℚ) * 1)) [0, 0, 0] 1 1
            1).getD 1 0 / 1)) :=
  ⟨⟨by norm_num, by norm_num⟩,
    euler_fallback_recurrence 1 1 1 1 [0, 0, 0] 3 1 (by norm_num)
      (by norm_num)⟩

/-! ### C7 — impulse sampling area -/

/-- Sum of a one-hot function mapped over `List.range`. -/
theorem sum_map_range_single (h : ℚ) : ∀ n : ℕ, 1 ≤ n →
    (((List.range n).map (fun j : ℕ => if j = 0 then h else 0)).sum) = h := by
  intro n hn
  induction n with
  | zero => omega
  | succ m ih =>
    rw [List.range_succ, List.map_append, List.sum_append]
    rcases Nat.eq_zero_or_pos m with hm | hm
    · subst hm
      simp
    · rw [ih hm]
      simp [Nat.pos_iff_ne_zero.mp hm]

/-- Counterexample to C7: with amplitude `1` on the uniform non-negative
grid `[0, 1, 2, 3]` (spacing `dt = 1`), the sampled impulse is
`[1/2, 0, 0, 0]`, whose area `sum * dt = 1/2` is not the claimed `≈ A = 1`
(it is exactly half of it). -/
theorem impulse_area_counterexample :
    SignalGenerator.impulse_signal ⟨some 1, none, none⟩ [0, 1, 2, 3] =
      [1 / 2, 0, 0, 0] ∧
    (SignalGenerator.impulse_signal ⟨some 1, none, none⟩
      [0, 1, 2, 3]).sum * 1 = 1 / 2 ∧
    ((1 : ℚ) / 2) ≠ 1 := by
  have h1 : SignalGenerator.impulse_signal ⟨some 1, none, none⟩
      [0, 1, 2, 3] = [1 / 2, 0, 0, 0] := by
    norm_num [SignalGenerator.impulse_signal, abs]
  refine ⟨h1, ?_, by norm_num⟩
  rw [h1]
  norm_num

/-- C7 (amended): on a uniform non-negative grid of `n ≥ 2` points with
spacing `dt > 0`, the sampled impulse has the single nonzero sample
`A/(2*dt)` at `t = 0` (height `A/(2*dt)`, as claimed), all other samples
are `0`, and the discrete area `sum * dt` is exactly `A/2` — half the
claimed value, because only the non-negative half of the width-`2*dt`
pulse centered at `t = 0` lies on the grid. -/
theorem impulse_area_half (A dt : ℚ) (n k : ℕ) (hdt : 0 < dt) (hn : 2 ≤ n)
    (hk : k < n) :
    (SignalGenerator.impulse_signal ⟨some A, none, none⟩
        ((List.range n).map (fun j : ℕ => (j : ℚ) * dt))).getD k 0 =
      (if k = 0 then A / (2 * dt) else 0) ∧
    (SignalGenerator.impulse_signal ⟨some A, none, none⟩
        ((List.range n).map (fun j : ℕ => (j : ℚ) * dt))).sum * dt =
      A / 2 := by
  have hgt : 1 < ((List.range n).map (fun j : ℕ => (j : ℚ) * dt)).length := by
    rw [List.length_map, List.length_range]
    omega
  have hdt' : (((List.range n).map (fun j : ℕ => (j : ℚ) * dt)).getD 1 0 -
      ((List.range n).map (fun j : ℕ => (j : ℚ) * dt)).getD 0 0) = dt := by
    rw [getD_map_range n _ 1 (by omega), getD_map_range n _ 0 (by omega)]
    push_cast
    ring
  have hexpand : SignalGenerator.impulse_signal ⟨some A, none, none⟩
      ((List.range n).map (fun j : ℕ => (j : ℚ) * dt)) =
      (List.range n).map (fun j : ℕ => if j = 0 then A / (2 * dt) else 0) := by
    dsimp only [SignalGenerator.impulse_signal, Option.getD_some]
    rw [if_pos hgt, hdt', List.map_map]
    apply List.map_congr_left
    intro j _
    show (if |(j : ℚ) * dt| < dt * 2 / 2 then A / (dt * 2) else 0) = _
    have h22 : dt * 2 / 2 = dt := by ring
    rw [h22]
    rcases Nat.eq_zero_or_pos j with hj | hj
    · subst hj
      rw [if_pos (by simpa using hdt), if_pos rfl]
      ring
    · have hge : dt ≤ (j : ℚ) * dt := by
        have h1 : (1 : ℚ) ≤ (j : ℚ) := by exact_mod_cast hj
        calc dt = 1 * dt := by ring
          _ ≤ (j : ℚ) * dt := mul_le_mul_of_nonneg_right h1 hdt.le
      have habs : |(j : ℚ) * dt| = (j : ℚ) * dt :=
        abs_of_nonneg (mul_nonneg (Nat.cast_nonneg j) hdt.le)
      rw [if_neg (by rw [habs]; exact not_lt.mpr hge),
        if_neg (Nat.pos_iff_ne_zero.mp hj)]
  constructor
  · rw [hexpand, getD_map_range n _ k hk]
  · rw [hexpand, sum_map_range_single _ n (by omega)]
    field_simp
    ring

/-- Witness for the amended C7 at `A = 1`, `dt = 1`, `n = 2`, `k = 1`. -/
theorem impulse_area_half_witness :
    ((0 : ℚ) < 1 ∧ 2 ≤ 2 ∧ 1 < 2) ∧
    ((SignalGenerator.impulse_signal ⟨some 1, none, none⟩
        ((List.range 2).map (fun j : ℕ => (j : ℚ) * 1))).getD 1 0 =
      (if 1 = 0 then 1 / (2 * 1) else 0) ∧
    (SignalGenerator.impulse_signal ⟨some 1, none, none⟩
        ((List.range 2).map (fun j : ℕ => (j : ℚ) * 1))).sum * 1 =
      1 / 2) :=
  ⟨⟨by norm_num, by norm_num, by norm_num⟩,
    impulse_area_half 1 1 2 1 (by norm_num) (by norm_num) (by norm_num)⟩

/-! ### C1 — evaluation failure handling -/

/-- Counterexample to C1: an evaluation outcome carrying a value flagged
non-finite (the `finite := false` entry) does not trigger the Euler
fallback — the code only falls back on a raised exception — so the
returned current trace is the real part `[3]` of the evaluated values, not
the 2000-sample Euler simulation the claim requires. -/
theorem eval_fallback_counterexample :
    LaplaceSolver.gnsCurrent (fun _ => .ok [⟨3, 0, false⟩]) "step"
      ⟨some 1, none, none⟩ 1 1 1 = some [3] ∧
    [(3 : ℚ)] ≠ LaplaceSolver.numerical_simulation
      (LaplaceSolver.linspace 0 (1 / 50) 2000)
      ((LaplaceSolver.linspace 0 (1 / 50) 2000).map (fun _ => 1)) 1 1 1 := by
  constructor
  · rfl
  · intro hEq
    have hlen := congrArg List.length hEq
    rw [length_numerical_simulation, length_linspace] at hlen
    simp at hlen

/-- C1 (amended): the current trace is replaced by the Euler simulation
exactly when converting or evaluating the closed form raises; when the
evaluation returns values — finite or not, complex or not — the trace is
their real parts (no finiteness check is performed). -/
theorem eval_fallback_on_exception
    (evalF : List ℚ → Except Unit (List LaplaceSolver.CVal)) (st : String)
    (p : SignalParams) (R L C : ℚ) (inp : List ℚ)
    (vals : List LaplaceSolver.CVal)
    (hsig : SignalGenerator.generate_signal st p
      (LaplaceSolver.linspace 0 (LaplaceSolver.get_duration st p) 2000) =
        .ok inp) :
    (evalF (LaplaceSolver.linspace 0 (LaplaceSolver.get_duration st p)
        2000) = .error () →
      LaplaceSolver.gnsCurrent evalF st p R L C =
        some (LaplaceSolver.numerical_simulation
          (LaplaceSolver.linspace 0 (LaplaceSolver.get_duration st p) 2000)
          inp R L C)) ∧
    (evalF (LaplaceSolver.linspace 0 (LaplaceSolver.get_duration st p)
        2000) = .ok vals →
      LaplaceSolver.gnsCurrent evalF st p R L C =
        some (vals.map (fun v => v.re))) := by
  constructor <;> intro h <;>
    simp only [LaplaceSolver.gnsCurrent,
      LaplaceSolver.generate_numerical_solution, hsig, h, Except.toOption,
      Option.map_some']

/-- Witness for the amended C1 with a step input and an always-raising
evaluation oracle. -/
theorem eval_fallback_on_exception_witness :
    (SignalGenerator.generate_signal "step" ⟨some 1, none, none⟩
      (LaplaceSolver.linspace 0 (1 / 50) 2000) =
        .ok ((LaplaceSolver.linspace 0 (1 / 50) 2000).map (fun _ => 1))) ∧
    (((Except.error () : Except Unit (List LaplaceSolver.CVal)) =
        .error () →
      LaplaceSolver.gnsCurrent (fun _ => .error ()) "step"
        ⟨some 1, none, none⟩ 1 1 1 =
        some (LaplaceSolver.numerical_simulation
          (LaplaceSolver.linspace 0 (1 / 50) 2000)
          ((LaplaceSolver.linspace 0 (1 / 50) 2000).map (fun _ => 1))
          1 1 1)) ∧
    ((Except.error () : Except Unit (List LaplaceSolver.CVal)) = .ok [] →
      LaplaceSolver.gnsCurrent (fun _ => .error ()) "step"
        ⟨some 1, none, none⟩ 1 1 1 =
        some (([] : List LaplaceSolver.CVal).map (fun v => v.re)))) :=
  ⟨rfl, eval_fallback_on_exception (fun _ => .error ()) "step"
    ⟨some 1, none, none⟩ 1 1 1
    ((LaplaceSolver.linspace 0 (1 / 50) 2000).map (fun _ => 1)) [] rfl⟩

/-! ### C3 — parameter validation -/

/-- Counterexample to C3: constructing the model with `R = 0` raises
nothing and produces a `CircuitModel` object, with computed attributes
`zeta = 0`, `omega_0 = 1` and the underdamped label. -/
theorem invalid_parameter_counterexample :
    (RLCModel.init 0 1 1).R = 0 ∧ (RLCModel.init 0 1 1).zeta = 0 ∧
    (RLCModel.init 0 1 1).omega_0 = 1 ∧
    (RLCModel.init 0 1 1).damping_type = "subamortiguado" := by
  have hcond : (0 : ℝ) / 2 * Real.sqrt (1 / 1) < 1 := by
    norm_num
  simp only [RLCModel.init, if_pos hcond]
  norm_num [Real.sqrt_one]

/-- C3 (amended): the constructor performs no validation (construction with
non-positive values still yields a model object, see the counterexample);
it is the caller boundary `MainWindow.simulate` that rejects any
non-strictly-positive `R`, `L`, `C` before construction, producing no
CircuitModel. -/
theorem invalid_parameter_guard (R L C : ℝ) (h : R ≤ 0 ∨ L ≤ 0 ∨ C ≤ 0) :
    simulateModel R L C = none := by
  rw [simulateModel, if_pos h]

/-- Witness for the amended C3 at `R = 0`, `L = 1`, `C = 1`. -/
theorem invalid_parameter_guard_witness :
    ((0 : ℝ) ≤ 0 ∨ (1 : ℝ) ≤ 0 ∨ (1 : ℝ) ≤ 0) ∧
    simulateModel 0 1 1 = none :=
  ⟨Or.inl le_rfl, invalid_parameter_guard 0 1 1 (Or.inl le_rfl)⟩

/-! ### C6 — characteristic parameters -/

/-- Characteristic-parameter property of a constructed model: `ω0·√(LC) = 1`,
`ζ = (R/2)·√(C/L)`, the damping label matches the comparison of `ζ` with
`1`, and `ωd = ω0·√(1 − ζ²)` exactly in the underdamped case, else `0`. -/
def CharacteristicSpec (R L C : ℝ) : Prop :=
  (RLCModel.init R L C).omega_0 * Real.sqrt (L * C) = 1 ∧
  (RLCModel.init R L C).zeta = R / 2 * Real.sqrt (C / L) ∧
  ((RLCModel.init R L C).damping_type = "subamortiguado" ↔
    (RLCModel.init R L C).zeta < 1) ∧
  ((RLCModel.init R L C).damping_type = "críticamente amortiguado" ↔
    (RLCModel.init R L C).zeta = 1) ∧
  ((RLCModel.init R L C).damping_type = "sobreamortiguado" ↔
    1 < (RLCModel.init R L C).zeta) ∧
  ((RLCModel.init R L C).zeta < 1 →
    (RLCModel.init R L C).omega_d =
      (RLCModel.init R L C).omega_0 *
        Real.sqrt (1 - (RLCModel.init R L C).zeta ^ 2)) ∧
  (¬ (RLCModel.init R L C).zeta < 1 → (RLCModel.init R L C).omega_d = 0)

/-- C6: for all strictly positive `R`, `L`, `C` the constructed model
satisfies the characteristic-parameter property. -/
theorem characteristic_params (R L C : ℝ) (hR : 0 < R) (hL : 0 < L)
    (hC : 0 < C) : CharacteristicSpec R L C := by
  unfold CharacteristicSpec
  have hLC : (0 : ℝ) < L * C := mul_pos hL hC
  have hsqrt : Real.sqrt (L * C) ≠ 0 := ne_of_gt (Real.sqrt_pos.mpr hLC)
  have hsub : ("subamortiguado" : String) ≠ "críticamente amortiguado" := by
    decide
  have hsub2 : ("subamortiguado" : String) ≠ "sobreamortiguado" := by decide
  have hcrit : ("críticamente amortiguado" : String) ≠ "subamortiguado" := by
    decide
  have hcrit2 : ("críticamente amortiguado" : String) ≠
      "sobreamortiguado" := by decide
  have hover : ("sobreamortiguado" : String) ≠ "subamortiguado" := by decide
  have hover2 : ("sobreamortiguado" : String) ≠
      "críticamente amortiguado" := by decide
  simp only [RLCModel.init]
  by_cases h1 : R / 2 * Real.sqrt (C / L) < 1
  · rw [if_pos h1]
    exact ⟨one_div_mul_cancel hsqrt, rfl,
      iff_of_true rfl h1,
      iff_of_false hsub (ne_of_lt h1),
      iff_of_false hsub2 (not_lt.mpr h1.le),
      fun _ => rfl, fun hcon => absurd h1 hcon⟩
  · by_cases h2 : R / 2 * Real.sqrt (C / L) = 1
    · rw [if_neg h1, if_pos h2]
      exact ⟨one_div_mul_cancel hsqrt, rfl,
        iff_of_false hcrit h1,
        iff_of_true rfl h2,
        iff_of_false hcrit2 (by rw [h2]; exact lt_irrefl 1),
        fun hlt => absurd hlt h1, fun _ => rfl⟩
    · rw [if_neg h1, if_neg h2]
      exact ⟨one_div_mul_cancel hsqrt, rfl,
        iff_of_false hover h1,
        iff_of_false hover2 h2,
        iff_of_true rfl (lt_of_le_of_ne (not_lt.mp h1) (Ne.symm h2)),
        fun hlt => absurd hlt h1, fun _ => rfl⟩

/-- Witness for C6 at `R = 2`, `L = 1`, `C = 1` (critically damped). -/
theorem characteristic_params_witness :
    ((0 : ℝ) < 2 ∧ (0 : ℝ) < 1) ∧ CharacteristicSpec 2 1 1 :=
  ⟨⟨by norm_num, by norm_num⟩,
    characteristic_params 2 1 1 (by norm_num) (by norm_num) (by norm_num)⟩

/-! ### C10 — impedance at zero frequency -/

/-- C10: for every model with nonzero capacitance and every frequency
`f ≠ 0`, `get_impedance` returns `R + j(2πf·L − 1/(2πf·C))` without error,
while at `f = 0` the capacitive-reactance division is a division by zero
and the error branch is reached, producing no impedance value. -/
theorem impedance_zero_frequency (m : RLCModel) (f : ℝ) (hC : m.C ≠ 0)
    (hf : f ≠ 0) :
    m.get_impedance f =
      .ok ((m.R : ℂ) + Complex.I * (((2 * Real.pi * f * m.L : ℝ) : ℂ) -
        ((1 / (2 * Real.pi * f * m.C) : ℝ) : ℂ))) ∧
    m.get_impedance 0 = .error () := by
  constructor
  · have homega : 2 * Real.pi * f * m.C ≠ 0 :=
      mul_ne_zero (mul_ne_zero (mul_ne_zero two_ne_zero Real.pi_ne_zero) hf)
        hC
    simp only [RLCModel.get_impedance, if_neg homega]
  · simp only [RLCModel.get_impedance, mul_zero, zero_mul, if_pos]

/-- Fixed concrete model value used by witnesses (field values are
irrelevant beyond `C = 1`). -/
noncomputable def exampleModel : RLCModel := ⟨1, 1, 1, 0, 0, 0, "", 0⟩

/-- Witness for C10 at the concrete model with `C = 1` and `f = 1`. -/
theorem impedance_zero_frequency_witness :
    (exampleModel.C ≠ 0 ∧ (1 : ℝ) ≠ 0) ∧
    (exampleModel.get_impedance 1 =
      .ok ((exampleModel.R : ℂ) + Complex.I *
        (((2 * Real.pi * 1 * exampleModel.L : ℝ) : ℂ) -
          ((1 / (2 * Real.pi * 1 * exampleModel.C) : ℝ) : ℂ))) ∧
    exampleModel.get_impedance 0 = .error ()) :=
  ⟨⟨by norm_num [exampleModel], one_ne_zero⟩,
    impedance_zero_frequency exampleModel 1 (by norm_num [exampleModel])
      one_ne_zero⟩

/-! ### C9 — inversion failure recovery -/

theorem length_npGradient (f x : List ℚ) :
    (LaplaceSolver.npGradient f x).length = f.length := by
  rw [LaplaceSolver.npGradient, List.length_map, List.length_range]

theorem length_calculate_voltage_L (time current : List ℚ) (L : ℚ) :
    (LaplaceSolver.calculate_voltage_L time current L).length =
      current.length := by
  rw [LaplaceSolver.calculate_voltage_L, List.length_map, length_npGradient]

theorem length_calculate_voltage_C (time current : List ℚ) (C : ℚ) :
    (LaplaceSolver.calculate_voltage_C time current C).length =
      current.length := by
  rw [LaplaceSolver.calculate_voltage_C, List.length_map, List.length_range]

/-- Sampling succeeds (with a grid-length result) for every kind the
transform builder recognizes. -/
theorem generate_signal_ok_of_laplace (st : String) (p : SignalParams)
    (t : List ℚ) (V : SymExpr)
    (h : LaplaceSolver.get_signal_laplace st p = .ok V) :
    ∃ l, SignalGenerator.generate_signal st p t = .ok l ∧
      l.length = t.length := by
  by_cases h1 : st = "step"
  · exact ⟨SignalGenerator.step_signal p t,
      by simp [SignalGenerator.generate_signal, h1],
      by simp [SignalGenerator.step_signal]⟩
  by_cases h2 : st = "pulse"
  · exact ⟨SignalGenerator.pulse_signal p t,
      by simp [SignalGenerator.generate_signal, h1, h2],
      by simp [SignalGenerator.pulse_signal]⟩
  by_cases h3 : st = "ramp"
  · exact ⟨SignalGenerator.ramp_signal p t,
      by simp [SignalGenerator.generate_signal, h1, h2, h3],
      by simp [SignalGenerator.ramp_signal]⟩
  by_cases h4 : st = "delayed"
  · exact ⟨SignalGenerator.delayed_signal p t,
      by simp [SignalGenerator.generate_signal, h1, h2, h3, h4],
      by simp [SignalGenerator.delayed_signal]⟩
  by_cases h5 : st = "impulse"
  · exact ⟨SignalGenerator.impulse_signal p t,
      by simp [SignalGenerator.generate_signal, h1, h2, h3, h4, h5],
      by simp [SignalGenerator.impulse_signal]⟩
  · exfalso
    rw [LaplaceSolver.get_signal_laplace] at h
    simp only [if_neg h1, if_neg h2, if_neg h3, if_neg h4, if_neg h5] at h
    exact Except.noConfusion h

/-- C9: when analytic inversion of `I(s)` raises (and the un-inverted
transform-domain expression cannot be evaluated numerically either, which
raises and defers to the Euler path), `solve` completes: the symbolic
field of the returned bundle is the un-inverted simplified
transform-domain expression `I(s) = simplify(V(s)/Z(s))`, and all six
numeric sequences of the bundle are present with the full 2000-sample
length. -/
theorem inversion_failure_recovery (O : LaplaceSolver.SymOracle)
    (R L C : ℚ) (st : String) (p : SignalParams) (Vs : SymExpr)
    (hV : LaplaceSolver.get_signal_laplace st p = .ok Vs)
    (hInv : O.inverseLaplace
      (O.simplify (.div Vs (LaplaceSolver.Zs R L C))) = .error ())
    (hEval : O.lambdifyEval (O.simplify (.div Vs (LaplaceSolver.Zs R L C)))
      (LaplaceSolver.linspace 0 (LaplaceSolver.get_duration st p) 2000) =
        .error ()) :
    LaplaceSolver.solveSymbolic O R L C st p =
      some (O.simplify (.div Vs (LaplaceSolver.Zs R L C))) ∧
    LaplaceSolver.solveLengths O R L C st p =
      some (2000, 2000, 2000, 2000, 2000, 2000) := by
  obtain ⟨inp, hgen, hlen⟩ := generate_signal_ok_of_laplace st p
    (LaplaceSolver.linspace 0 (LaplaceSolver.get_duration st p) 2000) Vs hV
  have hlen2000 : inp.length = 2000 := by rw [hlen, length_linspace]
  constructor
  · simp only [LaplaceSolver.solveSymbolic, LaplaceSolver.solve, hV, hInv,
      LaplaceSolver.generate_numerical_solution, hgen, hEval,
      Except.toOption, Option.map_some']
  · simp only [LaplaceSolver.solveLengths, LaplaceSolver.solve, hV, hInv,
      LaplaceSolver.generate_numerical_solution, hgen, hEval,
      Except.toOption, Option.map_some', length_linspace, List.length_map,
      length_numerical_simulation, length_calculate_voltage_L,
      length_calculate_voltage_C, hlen2000]

/-- Oracle whose external calls all raise (and whose `simplify` is the
identity), used to witness the recovery path. -/
def failOracle : LaplaceSolver.SymOracle :=
  ⟨id, fun _ => .error (), fun _ _ => .error ()⟩

/-- Witness for C9 with a step input and the always-failing oracle. -/
theorem inversion_failure_recovery_witness :
    (LaplaceSolver.get_signal_laplace "step" ⟨some 1, none, none⟩ =
        .ok (.div (.const 1) .svar) ∧
      failOracle.inverseLaplace (failOracle.simplify
        (.div (.div (.const 1) .svar) (LaplaceSolver.Zs 1 1 1))) =
          .error () ∧
      failOracle.lambdifyEval (failOracle.simplify
        (.div (.div (.const 1) .svar) (LaplaceSolver.Zs 1 1 1)))
        (LaplaceSolver.linspace 0
          (LaplaceSolver.get_duration "step" ⟨some 1, none, none⟩) 2000) =
            .error ()) ∧
    (LaplaceSolver.solveSymbolic failOracle 1 1 1 "step"
        ⟨some 1, none, none⟩ =
      some (failOracle.simplify
        (.div (.div (.const 1) .svar) (LaplaceSolver.Zs 1 1 1))) ∧
    LaplaceSolver.solveLengths failOracle 1 1 1 "step"
        ⟨some 1, none, none⟩ =
      some (2000, 2000, 2000, 2000, 2000, 2000)) :=
  ⟨⟨rfl, rfl, rfl⟩,
    inversion_failure_recovery failOracle 1 1 1 "step" ⟨some 1, none, none⟩
      (.div (.const 1) .svar) rfl rfl rfl⟩

end RLC
